import Mathlib

/-!
# Verification of the sutu icon scripts

Shallow embedding of the two build-support scripts of the repository:

* `scripts/generate_placeholder_icon.py` — `create_gradient_icon`: procedurally
  draws a master icon (rounded-rectangle base, a gradient wavy stroke stamped as
  200 filled circles, and a translucent highlight ellipse).
* `scripts/process_icons.py` — `process_icon`: loads a source image and fans it
  out into a fixed table of resized PNGs, one multi-resolution ICO, and a public
  512x512 copy; plus the `__main__` CLI glue.

Modelling conventions:

* Python floats are idealized as exact rationals (`ℚ`); the decimal literals
  0.2, 0.3, 0.15, 0.5 of the source become `2/10`, `3/10`, `15/100`, `1/2`.
* Python `int(x)` truncates toward zero; `pyInt` models it exactly.
* The PIL library is modelled by its contract: `Image.open` yields a canonical
  image of the file's dimensions, `Image.resize` returns a fresh derived image
  of exactly the requested dimensions (the original is untouched), and `save`
  appends a file write. The `Img` inductive records the derivation chain, so
  "derived from the original, not from a previous resize" is a structural fact.
* `math.sin(t * math.pi * 2)` is transcendental; the drawing model takes the
  composite map `t ↦ sin(2πt)` as an explicit function parameter `sin2pi`
  (no claim depends on circle positions).
* The filesystem seen by the exporter is an association list from path to the
  dimensions of the image stored there; `os.path.exists` is `lookup ≠ none`.
-/

/-! ## Generator: scripts/generate_placeholder_icon.py -/

/-- Gradient anchor color `c1 = (0, 198, 255)` (electric blue). -/
def c1 : ℤ × ℤ × ℤ := (0, 198, 255)

/-- Gradient anchor color `c2 = (140, 50, 255)` (purple). -/
def c2 : ℤ × ℤ × ℤ := (140, 50, 255)

/-- Gradient anchor color `c3 = (255, 30, 150)` (pink). -/
def c3 : ℤ × ℤ × ℤ := (255, 30, 150)

/-- Number of samples along the parametric stroke: `steps = 200`. -/
def steps : ℕ := 200

/-- Python `int(x)`: truncation toward zero. -/
def pyInt (q : ℚ) : ℤ := if 0 ≤ q then ⌊q⌋ else ⌈q⌉

/-- The sample parameter of iteration `i`: `t = i / (steps - 1)`. -/
def sampleT (i : ℕ) : ℚ := (i : ℚ) / ((steps : ℚ) - 1)

/-- Stroke color at parameter `t`, from the two-segment interpolation of the
source: for `t < 0.5` interpolate `c1 → c2` with `local_t = t * 2`, otherwise
`c2 → c3` with `local_t = (t - 0.5) * 2`; each channel truncated by `int`,
alpha `255`. -/
def strokeColor (t : ℚ) : ℤ × ℤ × ℤ × ℤ :=
  if t < 1/2 then
    let local_t := t * 2
    let r := pyInt ((c1.1 : ℚ) + ((c2.1 : ℚ) - (c1.1 : ℚ)) * local_t)
    let g := pyInt ((c1.2.1 : ℚ) + ((c2.2.1 : ℚ) - (c1.2.1 : ℚ)) * local_t)
    let b := pyInt ((c1.2.2 : ℚ) + ((c2.2.2 : ℚ) - (c1.2.2 : ℚ)) * local_t)
    (r, g, b, 255)
  else
    let local_t := (t - 1/2) * 2
    let r := pyInt ((c2.1 : ℚ) + ((c3.1 : ℚ) - (c2.1 : ℚ)) * local_t)
    let g := pyInt ((c2.2.1 : ℚ) + ((c3.2.1 : ℚ) - (c2.2.1 : ℚ)) * local_t)
    let b := pyInt ((c2.2.2 : ℚ) + ((c3.2.2 : ℚ) - (c2.2.2 : ℚ)) * local_t)
    (r, g, b, 255)

/-- Stroke thickness at parameter `t`:
`thickness = (size * 0.15) * (1 - 0.5 * abs(t - 0.5))`. -/
def thickness (size t : ℚ) : ℚ := (size * (15/100)) * (1 - (1/2) * |t - 1/2|)

/-- One stamped circle of the stroke: center, fill color, radius. -/
structure StampedCircle where
  cx : ℚ
  cy : ℚ
  color : ℤ × ℤ × ℤ × ℤ
  radius : ℚ
deriving Repr, DecidableEq

/-- The full drawing produced by the generator, in draw order: transparent
canvas, dark rounded rectangle, the list of stamped circles, the glass
highlight ellipse. Saving the image persists exactly this content. -/
structure Drawing where
  size : ℕ
  bg_color : ℤ × ℤ × ℤ
  corner_radius : ℕ
  circles : List StampedCircle
  highlight_box : ℚ × ℚ × ℚ × ℚ
  highlight_color : ℤ × ℤ × ℤ × ℤ
deriving Repr, DecidableEq

/-- `create_gradient_icon(output_path, size=1024)` as a pure drawing: the
canvas content that gets saved to `output_path`. `sin2pi` abstracts the map
`t ↦ math.sin(t * math.pi * 2)` used only for the y-coordinate. -/
def create_gradient_icon (sin2pi : ℚ → ℚ) (size : ℕ := 1024) : Drawing :=
  let bg_color : ℤ × ℤ × ℤ := (20, 20, 25)
  let corner_radius := size / 5
  let margin : ℚ := (size : ℚ) * (2/10)
  let width : ℚ := (size : ℚ) - 2 * margin
  let height : ℚ := (size : ℚ) - 2 * margin
  let circles := (List.range steps).map fun i =>
    let t := sampleT i
    let x := margin + width * t
    let y := (size : ℚ) / 2 + sin2pi t * (height * (3/10))
    let color := strokeColor t
    let th := thickness (size : ℚ) t
    let rO := th / 2
    { cx := x, cy := y, color := color, radius := rO : StampedCircle }
  { size := size
    bg_color := bg_color
    corner_radius := corner_radius
    circles := circles
    highlight_box :=
      ((size : ℚ) * (1/10), (size : ℚ) * (1/10), (size : ℚ) * (9/10), (size : ℚ) * (5/10))
    highlight_color := (255, 255, 255, 20) }

/-! ## Exporter: scripts/process_icons.py -/

/-- The resampling filter passed to `Image.resize`. -/
inductive Resampling where
  | lanczos
deriving Repr, DecidableEq

/-- An in-memory PIL image, recorded with its derivation: either the canonical
image loaded from disk (`source`) or the fresh result of a `resize` call on a
parent image (`resized`). `resize` never mutates its receiver. -/
inductive Img where
  | source (w h : ℕ)
  | resized (parent : Img) (w h : ℕ) (method : Resampling)
deriving Repr, DecidableEq

/-- Pixel width of an image; a resized image has exactly the requested width. -/
def Img.width : Img → ℕ
  | .source w _ => w
  | .resized _ w _ _ => w

/-- Pixel height of an image; a resized image has exactly the requested height. -/
def Img.height : Img → ℕ
  | .source _ h => h
  | .resized _ _ h _ => h

/-- `img.resize(size, method)`: returns a fresh image of the requested
dimensions derived from `img`, leaving `img` untouched. -/
def Img.resize (img : Img) (size : ℕ × ℕ) (method : Resampling) : Img :=
  .resized img size.1 size.2 method

/-- A file written by a `save` call: a single PNG, or an ICO container
embedding the image at a list of sizes. -/
inductive SavedFile where
  | png (img : Img)
  | ico (img : Img) (embeddedSizes : List (ℕ × ℕ))
deriving Repr, DecidableEq

/-- Whether a saved file is the multi-resolution ICO container. -/
def SavedFile.isIco : SavedFile → Bool
  | .png _ => false
  | .ico _ _ => true

/-- A saved file's content derives in a single step from the image `src`:
a PNG is the direct result of one `resize` call on `src` itself (not on some
previously resized image), and the ICO container embeds `src` itself. -/
def SavedFile.derivedDirectlyFrom (src : Img) : SavedFile → Prop
  | .png i => ∃ a b m, i = Img.resized src a b m
  | .ico i _ => i = src

/-- One write performed by the exporter: directory, filename, content. -/
structure FileWrite where
  dir : String
  name : String
  content : SavedFile
deriving Repr, DecidableEq

/-- The observable outcome of one `process_icon` run: the error message
printed (if any), the directories passed to `os.makedirs`, and the file
writes in program order. -/
structure ExportResult where
  error : Option String
  dirsCreated : List String
  writes : List FileWrite
deriving Repr, DecidableEq

/-- The fixed size table `sizes` of `process_icon`, in source order. -/
def sizes : List (String × ℕ × ℕ) :=
  [("icon.png", 512, 512),
   ("32x32.png", 32, 32),
   ("128x128.png", 128, 128),
   ("128x128@2x.png", 256, 256),
   ("Square30x30Logo.png", 30, 30),
   ("Square44x44Logo.png", 44, 44),
   ("Square71x71Logo.png", 71, 71),
   ("Square89x89Logo.png", 89, 89),
   ("Square107x107Logo.png", 107, 107),
   ("Square142x142Logo.png", 142, 142),
   ("Square150x150Logo.png", 150, 150),
   ("Square284x284Logo.png", 284, 284),
   ("Square310x310Logo.png", 310, 310),
   ("StoreLogo.png", 50, 50)]

/-- The fixed ICO size list `ico_sizes` of `process_icon`. -/
def ico_sizes : List (ℕ × ℕ) :=
  [(256, 256), (128, 128), (64, 64), (48, 48), (32, 32), (16, 16)]

/-- The filesystem visible to the exporter: an association list from path to
the pixel dimensions of the raster image stored at that path.
`os.path.exists p` holds iff `fs.lookup p ≠ none`. -/
abbrev Fs := List (String × ℕ × ℕ)

/-- `process_icon(source_path, target_dir_tauri, target_dir_public)`:
if the source path does not exist, print an error and return; otherwise make
the two directories, open the source as the canonical image, save one resized
copy per `sizes` entry into the tauri directory, save the multi-size ICO, and
save a 512x512 copy into the public directory. -/
def process_icon (fs : Fs) (source_path target_dir_tauri target_dir_public : String) :
    ExportResult :=
  match fs.lookup source_path with
  | none =>
      { error := some ("Error: Source file not found at " ++ source_path)
        dirsCreated := []
        writes := [] }
  | some (w, h) =>
      let img := Img.source w h
      let pngWrites := sizes.map fun s =>
        { dir := target_dir_tauri
          name := s.1
          content := SavedFile.png (img.resize s.2 .lanczos) : FileWrite }
      let icoWrite : FileWrite :=
        { dir := target_dir_tauri
          name := "icon.ico"
          content := SavedFile.ico img ico_sizes }
      let publicWrite : FileWrite :=
        { dir := target_dir_public
          name := "icon.png"
          content := SavedFile.png (img.resize (512, 512) .lanczos) }
      { error := none
        dirsCreated := [target_dir_tauri, target_dir_public]
        writes := pngWrites ++ [icoWrite] ++ [publicWrite] }

/-- The `__main__` block of `process_icons.py`: with fewer than two argv
entries, print usage and exit with status 1; otherwise run `process_icon` on
`argv[1]` with the two fixed directories under the current working directory
and terminate normally (exit status 0). Returns (exit status, run outcome). -/
def main_run (argv : List String) (fs : Fs) (cwd : String) :
    ℕ × Option ExportResult :=
  if argv.length < 2 then
    (1, none)
  else
    let source_image := argv.getD 1 ""
    let tauri_icons_dir := cwd ++ "/src-tauri/icons"
    let public_dir := cwd ++ "/public"
    (0, some (process_icon fs source_image tauri_icons_dir public_dir))

/-! ## Theorems about the exporter -/

/-- C1: for every entry `(filename, width, height)` of the exporter's fixed
size table, the run writes a PNG under that filename in the tauri directory
whose pixel dimensions are exactly `(width, height)`, and the public
`icon.png` written to the web directory is exactly 512x512. -/
theorem process_icon_output_dims (fs : Fs) (src td tp : String) (w h : ℕ)
    (hsrc : fs.lookup src = some (w, h)) :
    (∀ e ∈ sizes, ∃ fw ∈ (process_icon fs src td tp).writes,
      fw.dir = td ∧ fw.name = e.1 ∧
      ∃ im, fw.content = SavedFile.png im ∧ im.width = e.2.1 ∧ im.height = e.2.2) ∧
    (∃ fw ∈ (process_icon fs src td tp).writes,
      fw.dir = tp ∧ fw.name = "icon.png" ∧
      ∃ im, fw.content = SavedFile.png im ∧ im.width = 512 ∧ im.height = 512) := by
  simp only [process_icon, hsrc]
  constructor
  · intro e he
    refine ⟨⟨td, e.1, SavedFile.png ((Img.source w h).resize e.2 .lanczos)⟩, ?_,
      rfl, rfl, _, rfl, rfl, rfl⟩
    exact List.mem_append_left _ (List.mem_append_left _
      (List.mem_map.mpr ⟨e, he, rfl⟩))
  · refine ⟨⟨tp, "icon.png", SavedFile.png ((Img.source w h).resize (512, 512) .lanczos)⟩,
      ?_, rfl, rfl, _, rfl, rfl, rfl⟩
    exact List.mem_append_right _ (List.mem_singleton.mpr rfl)

/-- Witness for C1 at a concrete filesystem holding a 1024x1024 source. -/
theorem process_icon_output_dims_witness :
    (([("icon_master.png", 1024, 1024)] : Fs).lookup "icon_master.png" = some (1024, 1024)) ∧
    ((∀ e ∈ sizes, ∃ fw ∈ (process_icon [("icon_master.png", 1024, 1024)]
          "icon_master.png" "src-tauri/icons" "public").writes,
        fw.dir = "src-tauri/icons" ∧ fw.name = e.1 ∧
        ∃ im, fw.content = SavedFile.png im ∧ im.width = e.2.1 ∧ im.height = e.2.2) ∧
      (∃ fw ∈ (process_icon [("icon_master.png", 1024, 1024)]
          "icon_master.png" "src-tauri/icons" "public").writes,
        fw.dir = "public" ∧ fw.name = "icon.png" ∧
        ∃ im, fw.content = SavedFile.png im ∧ im.width = 512 ∧ im.height = 512)) :=
  ⟨rfl, process_icon_output_dims [("icon_master.png", 1024, 1024)]
    "icon_master.png" "src-tauri/icons" "public" 1024 1024 rfl⟩

/-- Helper: the outcome of `process_icon` when the source lookup fails. -/
theorem process_icon_none_eq (fs : Fs) (src td tp : String)
    (hsrc : fs.lookup src = none) :
    process_icon fs src td tp =
      { error := some ("Error: Source file not found at " ++ src)
        dirsCreated := []
        writes := [] } := by
  simp only [process_icon, hsrc]

/-- C4: when the source path does not exist, `process_icon` returns normally
with the source-not-found error reported, zero file writes and zero
directories created. -/
theorem process_icon_missing_source (fs : Fs) (src td tp : String)
    (hsrc : fs.lookup src = none) :
    process_icon fs src td tp =
      { error := some ("Error: Source file not found at " ++ src)
        dirsCreated := []
        writes := [] } :=
  process_icon_none_eq fs src td tp hsrc

/-- Witness for C4 on an empty filesystem. -/
theorem process_icon_missing_source_witness :
    (([] : Fs).lookup "missing.png" = none) ∧
    process_icon [] "missing.png" "src-tauri/icons" "public" =
      { error := some ("Error: Source file not found at " ++ "missing.png")
        dirsCreated := []
        writes := [] } :=
  ⟨rfl, process_icon_missing_source [] "missing.png" "src-tauri/icons" "public" rfl⟩

/-- C6: in a successful run, every written file derives in one step from the
canonical source image (`Img.source w h`): each PNG is a single `resize` of
the canonical image itself and the ICO embeds the canonical image itself —
never a previously resized output. -/
theorem process_icon_derives_from_canonical (fs : Fs) (src td tp : String) (w h : ℕ)
    (hsrc : fs.lookup src = some (w, h)) :
    ∀ fw ∈ (process_icon fs src td tp).writes,
      fw.content.derivedDirectlyFrom (Img.source w h) := by
  simp only [process_icon, hsrc]
  intro fw hfw
  rcases List.mem_append.mp hfw with hfw | hfw
  · rcases List.mem_append.mp hfw with hfw | hfw
    · obtain ⟨e, _, rfl⟩ := List.mem_map.mp hfw
      exact ⟨e.2.1, e.2.2, .lanczos, rfl⟩
    · rw [List.mem_singleton.mp hfw]
      exact rfl
  · rw [List.mem_singleton.mp hfw]
    exact ⟨512, 512, .lanczos, rfl⟩

/-- Witness for C6 at a concrete filesystem holding a 1024x1024 source. -/
theorem process_icon_derives_from_canonical_witness :
    (([("icon_master.png", 1024, 1024)] : Fs).lookup "icon_master.png" = some (1024, 1024)) ∧
    ∀ fw ∈ (process_icon [("icon_master.png", 1024, 1024)]
        "icon_master.png" "src-tauri/icons" "public").writes,
      fw.content.derivedDirectlyFrom (Img.source 1024 1024) :=
  ⟨rfl, process_icon_derives_from_canonical [("icon_master.png", 1024, 1024)]
    "icon_master.png" "src-tauri/icons" "public" 1024 1024 rfl⟩

/-- C7: a successful run writes exactly one multi-resolution icon container:
filtering the writes for ICO content leaves precisely the single file
`icon.ico` in the tauri directory, embedding the canonical image at the
fixed descending size list 256, 128, 64, 48, 32, 16. -/
theorem process_icon_single_ico (fs : Fs) (src td tp : String) (w h : ℕ)
    (hsrc : fs.lookup src = some (w, h)) :
    (process_icon fs src td tp).writes.filter (fun fw => fw.content.isIco) =
      [⟨td, "icon.ico", SavedFile.ico (Img.source w h)
        [(256, 256), (128, 128), (64, 64), (48, 48), (32, 32), (16, 16)]⟩] := by
  simp only [process_icon, hsrc]
  rfl

/-- Witness for C7 at a concrete filesystem holding a 1024x1024 source. -/
theorem process_icon_single_ico_witness :
    (([("icon_master.png", 1024, 1024)] : Fs).lookup "icon_master.png" = some (1024, 1024)) ∧
    (process_icon [("icon_master.png", 1024, 1024)]
        "icon_master.png" "src-tauri/icons" "public").writes.filter
        (fun fw => fw.content.isIco) =
      [⟨"src-tauri/icons", "icon.ico", SavedFile.ico (Img.source 1024 1024)
        [(256, 256), (128, 128), (64, 64), (48, 48), (32, 32), (16, 16)]⟩] :=
  ⟨rfl, process_icon_single_ico [("icon_master.png", 1024, 1024)]
    "icon_master.png" "src-tauri/icons" "public" 1024 1024 rfl⟩

/-- C8: both programs are deterministic — two exporter runs over equal
filesystems with the same arguments produce equal outcomes (hence
byte-identical outputs), and two generator runs with the same canvas size
(and the same sine function) produce the identical drawing. -/
theorem runs_deterministic :
    (∀ (fs₁ fs₂ : Fs) (src td tp : String), fs₁ = fs₂ →
      process_icon fs₁ src td tp = process_icon fs₂ src td tp) ∧
    (∀ (sin2pi : ℚ → ℚ) (s₁ s₂ : ℕ), s₁ = s₂ →
      create_gradient_icon sin2pi s₁ = create_gradient_icon sin2pi s₂) :=
  ⟨fun _ _ _ _ _ hfs => by rw [hfs], fun _ _ _ hs => by rw [hs]⟩

/-- Witness for C8 at concrete equal inputs. -/
theorem runs_deterministic_witness :
    process_icon [("a.png", 8, 8)] "a.png" "t" "p" =
      process_icon [("a.png", 8, 8)] "a.png" "t" "p" ∧
    create_gradient_icon (fun _ => 0) 16 = create_gradient_icon (fun _ => 0) 16 :=
  ⟨runs_deterministic.1 [("a.png", 8, 8)] [("a.png", 8, 8)] "a.png" "t" "p" rfl,
   runs_deterministic.2 (fun _ => 0) 16 16 rfl⟩

/-- C10: when at least one CLI argument is supplied but the source path does
not exist, the `__main__` block terminates with exit status 0 and the run
reports the error with no directories created and no files written. -/
theorem main_run_missing_source (argv : List String) (fs : Fs) (cwd : String)
    (hlen : 2 ≤ argv.length) (hsrc : fs.lookup (argv.getD 1 "") = none) :
    (main_run argv fs cwd).1 = 0 ∧
    (main_run argv fs cwd).2 =
      some { error := some ("Error: Source file not found at " ++ argv.getD 1 "")
             dirsCreated := []
             writes := [] } := by
  have h2 : ¬ argv.length < 2 := Nat.not_lt.mpr hlen
  refine ⟨?_, ?_⟩ <;> simp only [main_run, if_neg h2]
  rw [process_icon_none_eq fs (argv.getD 1 "") _ _ hsrc]

/-- Witness for C10 at a concrete two-element argv and empty filesystem. -/
theorem main_run_missing_source_witness :
    2 ≤ (["process_icons.py", "missing.png"] : List String).length ∧
    (([] : Fs).lookup ((["process_icons.py", "missing.png"] : List String).getD 1 "") = none) ∧
    (main_run ["process_icons.py", "missing.png"] [] "/repo").1 = 0 ∧
    (main_run ["process_icons.py", "missing.png"] [] "/repo").2 =
      some { error := some ("Error: Source file not found at " ++
               (["process_icons.py", "missing.png"] : List String).getD 1 "")
             dirsCreated := []
             writes := [] } :=
  ⟨by decide, rfl,
   main_run_missing_source ["process_icons.py", "missing.png"] [] "/repo"
     (by decide) rfl⟩

/-! ## Theorems about the generator -/

/-- Helper: truncation toward zero never reaches a positive bound that the
argument stays below. -/
theorem pyInt_lt {q : ℚ} {n : ℤ} (hn : 0 < n) (h : q < (n : ℚ)) : pyInt q < n := by
  rw [pyInt]
  split_ifs with hq
  · exact Int.floor_lt.mpr h
  · have hc : ⌈q⌉ ≤ 0 :=
      Int.ceil_le.mpr (by exact_mod_cast le_of_lt (not_le.mp hq))
    omega

/-- Helper: truncation toward zero at an exact integer band. -/
theorem pyInt_eq_of_le_of_lt {q : ℚ} {n : ℤ} (h0 : 0 ≤ n) (h1 : (n : ℚ) ≤ q)
    (h2 : q < (n : ℚ) + 1) : pyInt q = n := by
  rw [pyInt, if_pos (le_trans (by exact_mod_cast h0) h1)]
  exact Int.floor_eq_iff.mpr ⟨h1, h2⟩

/-- Helper: no sample parameter hits 1/2 exactly, because `2 * i = 199` has
no natural solution. -/
theorem sampleT_ne_half (i : ℕ) : sampleT i ≠ 1/2 := by
  intro h
  norm_num [sampleT, steps] at h
  have h2 : (i : ℚ) * 2 = 199 := by field_simp at h; linarith
  have : i * 2 = 199 := by exact_mod_cast h2
  omega

/-- Helper: below the midpoint the red channel stays strictly below 140. -/
theorem strokeColor_red_lt {t : ℚ} (h : t < 1/2) : (strokeColor t).1 < 140 := by
  simp only [strokeColor, if_pos h]
  apply pyInt_lt (by norm_num)
  norm_num [c1, c2]
  nlinarith

/-- Helper: strictly above the midpoint the green channel stays strictly
below 50. -/
theorem strokeColor_green_lt {t : ℚ} (h : 1/2 < t) : (strokeColor t).2.1 < 50 := by
  simp only [strokeColor, if_neg (not_lt.mpr (le_of_lt h))]
  apply pyInt_lt (by norm_num)
  norm_num [c2, c3]
  nlinarith

/-- C2: the stroke color is the two-segment linear interpolation of the
spec — for `t < 1/2` each channel is `c1 + (c2 - c1) * (2t)`, for `1/2 ≤ t`
each channel is `c2 + (c3 - c2) * (2(t - 1/2))`, truncated to an integer,
with alpha 255 — and at `t = 0`, `t = 1/2`, `t = 1` the color equals
`c1`, `c2`, `c3` exactly. -/
theorem strokeColor_two_segment :
    (∀ t : ℚ, t < 1/2 →
      strokeColor t =
        (pyInt ((0 : ℚ) + (140 - 0) * (2 * t)),
         pyInt ((198 : ℚ) + (50 - 198) * (2 * t)),
         pyInt ((255 : ℚ) + (255 - 255) * (2 * t)), 255)) ∧
    (∀ t : ℚ, 1/2 ≤ t →
      strokeColor t =
        (pyInt ((140 : ℚ) + (255 - 140) * (2 * (t - 1/2))),
         pyInt ((50 : ℚ) + (30 - 50) * (2 * (t - 1/2))),
         pyInt ((255 : ℚ) + (150 - 255) * (2 * (t - 1/2))), 255)) ∧
    strokeColor 0 = (c1.1, c1.2.1, c1.2.2, 255) ∧
    strokeColor (1/2) = (c2.1, c2.2.1, c2.2.2, 255) ∧
    strokeColor 1 = (c3.1, c3.2.1, c3.2.2, 255) := by
  refine ⟨?_, ?_, ?_, ?_, ?_⟩
  · intro t ht
    simp only [strokeColor, if_pos ht, c1, c2, c3]
    norm_num
    ring_nf
    exact ⟨trivial, trivial⟩
  · intro t ht
    simp only [strokeColor, if_neg (not_lt.mpr ht), c1, c2, c3]
    norm_num
    ring_nf
    exact ⟨trivial, trivial, trivial⟩
  · norm_num [strokeColor, c1, c2, c3, pyInt]
  · norm_num [strokeColor, c2, c3, pyInt]
  · norm_num [strokeColor, c2, c3, pyInt]

/-- Witness for C2 at the concrete samples t = 1/4 and t = 3/4. -/
theorem strokeColor_two_segment_witness :
    ((1 : ℚ)/4 < 1/2 ∧ strokeColor (1/4) = (70, 124, 255, 255)) ∧
    ((1 : ℚ)/2 ≤ 3/4 ∧ strokeColor (3/4) = (197, 40, 202, 255)) := by
  constructor
  · refine ⟨by norm_num, ?_⟩
    rw [strokeColor_two_segment.1 (1/4) (by norm_num)]
    rw [pyInt_eq_of_le_of_lt (n := 70) (by norm_num) (by norm_num) (by norm_num),
      pyInt_eq_of_le_of_lt (n := 124) (by norm_num) (by norm_num) (by norm_num),
      pyInt_eq_of_le_of_lt (n := 255) (by norm_num) (by norm_num) (by norm_num)]
  · refine ⟨by norm_num, ?_⟩
    rw [strokeColor_two_segment.2.1 (3/4) (by norm_num)]
    rw [pyInt_eq_of_le_of_lt (n := 197) (by norm_num) (by norm_num) (by norm_num),
      pyInt_eq_of_le_of_lt (n := 40) (by norm_num) (by norm_num) (by norm_num),
      pyInt_eq_of_le_of_lt (n := 202) (by norm_num) (by norm_num) (by norm_num)]

/-- C3: for a positive canvas size `S` the thickness
`0.15 S (1 - 0.5 |t - 1/2|)` attains its maximum `0.15 S` at `t = 1/2`,
decreases monotonically from the midpoint toward either end, never exceeds
`0.15 S`, and on `[0, 1]` tapers by at most 50% of the maximum. -/
theorem thickness_shape (S : ℚ) (hS : 0 < S) :
    thickness S (1/2) = S * (15/100) ∧
    (∀ t : ℚ, thickness S t ≤ S * (15/100)) ∧
    (∀ t₁ t₂ : ℚ, 1/2 ≤ t₁ → t₁ ≤ t₂ → thickness S t₂ ≤ thickness S t₁) ∧
    (∀ t₁ t₂ : ℚ, t₁ ≤ t₂ → t₂ ≤ 1/2 → thickness S t₁ ≤ thickness S t₂) ∧
    (∀ t : ℚ, 0 ≤ t → t ≤ 1 → S * (15/100) * (1/2) ≤ thickness S t) := by
  refine ⟨?_, ?_, ?_, ?_, ?_⟩
  · simp [thickness]
  · intro t
    have h1 : 0 ≤ |t - 1/2| := abs_nonneg _
    simp only [thickness]
    nlinarith
  · intro t₁ t₂ h1 h2
    simp only [thickness]
    rw [abs_of_nonneg (by linarith), abs_of_nonneg (by linarith)]
    nlinarith
  · intro t₁ t₂ h1 h2
    simp only [thickness]
    rw [abs_of_nonpos (by linarith), abs_of_nonpos (by linarith)]
    nlinarith
  · intro t h0 h1
    have habs : |t - 1/2| ≤ 1/2 := abs_le.mpr ⟨by linarith, by linarith⟩
    simp only [thickness]
    nlinarith

/-- Witness for C3 at the concrete canvas size S = 1024. -/
theorem thickness_shape_witness :
    (0 : ℚ) < 1024 ∧
    (thickness 1024 (1/2) = 1024 * (15/100) ∧
     (∀ t : ℚ, thickness 1024 t ≤ 1024 * (15/100)) ∧
     (∀ t₁ t₂ : ℚ, 1/2 ≤ t₁ → t₁ ≤ t₂ → thickness 1024 t₂ ≤ thickness 1024 t₁) ∧
     (∀ t₁ t₂ : ℚ, t₁ ≤ t₂ → t₂ ≤ 1/2 → thickness 1024 t₁ ≤ thickness 1024 t₂) ∧
     (∀ t : ℚ, 0 ≤ t → t ≤ 1 → 1024 * (15/100) * (1/2) ≤ thickness 1024 t)) :=
  ⟨by norm_num, thickness_shape 1024 (by norm_num)⟩

/-- C5 counterexample: the claim that every sampled `t` lies in `[0, 1)` is
false — the last sample, `i = steps - 1 = 199`, has `t = 199/199 = 1`. -/
theorem sampleT_last_eq_one :
    sampleT (steps - 1) = 1 ∧
    ¬ (∀ i : Fin steps, 0 ≤ sampleT i ∧ sampleT i < 1) := by
  refine ⟨by norm_num [sampleT, steps], fun hall => ?_⟩
  have h := (hall ⟨199, by norm_num [steps]⟩).2
  norm_num [sampleT, steps] at h

/-- C5 amended: the generator samples `t = i / (steps - 1)` uniformly over
`steps = 200` values across the closed interval `[0, 1]`: every sample lies
in `[0, 1]`, consecutive samples are spaced exactly `1/199` apart, the first
sample is 0 and the last is 1. -/
theorem sampleT_uniform_closed_interval :
    (∀ i : Fin steps, 0 ≤ sampleT i ∧ sampleT i ≤ 1) ∧
    (∀ i : Fin (steps - 1), sampleT (i + 1) - sampleT i = 1 / ((steps : ℚ) - 1)) ∧
    sampleT 0 = 0 ∧ sampleT (steps - 1) = 1 := by
  refine ⟨?_, ?_, by norm_num [sampleT, steps], by norm_num [sampleT, steps]⟩
  · intro i
    have hi : (i : ℕ) ≤ 199 := by
      have := i.isLt
      simp only [steps] at this
      omega
    constructor
    · exact div_nonneg (by positivity) (by norm_num [steps])
    · rw [sampleT, div_le_one (by norm_num [steps])]
      norm_num [steps]
      exact_mod_cast hi
  · intro i
    simp only [sampleT, steps]
    push_cast
    ring_nf

/-- C9: since `t = i/199` and 199 is odd, no sample hits `t = 1/2`: no
stamped circle carries exactly the midpoint color `c2 = (140, 50, 255)` or
the maximal thickness `0.15 S`, while the endpoint samples are exact —
`t = 0` at `i = 0` and `t = 1` at `i = 199`. -/
theorem samples_never_exact_midpoint (S : ℚ) (hS : 0 < S) :
    (∀ i : Fin steps, sampleT i ≠ 1/2) ∧
    (∀ i : Fin steps, strokeColor (sampleT i) ≠ (c2.1, c2.2.1, c2.2.2, 255)) ∧
    (∀ i : Fin steps, thickness S (sampleT i) < S * (15/100)) ∧
    sampleT 0 = 0 ∧ sampleT (steps - 1) = 1 := by
  refine ⟨fun i => sampleT_ne_half i, ?_, ?_,
    by norm_num [sampleT, steps], by norm_num [sampleT, steps]⟩
  · intro i heq
    rcases (sampleT_ne_half i).lt_or_lt with hlt | hgt
    · have hr := strokeColor_red_lt hlt
      rw [heq] at hr
      norm_num [c2] at hr
    · have hg := strokeColor_green_lt hgt
      rw [heq] at hg
      norm_num [c2] at hg
  · intro i
    have habs : 0 < |sampleT i - 1/2| :=
      abs_pos.mpr (sub_ne_zero.mpr (sampleT_ne_half i))
    have hpos : 0 < S * (15/100) := by nlinarith
    simp only [thickness]
    nlinarith

/-- Witness for C9 at the concrete canvas size S = 1024. -/
theorem samples_never_exact_midpoint_witness :
    (0 : ℚ) < 1024 ∧
    ((∀ i : Fin steps, sampleT i ≠ 1/2) ∧
     (∀ i : Fin steps, strokeColor (sampleT i) ≠ (c2.1, c2.2.1, c2.2.2, 255)) ∧
     (∀ i : Fin steps, thickness 1024 (sampleT i) < 1024 * (15/100)) ∧
     sampleT 0 = 0 ∧ sampleT (steps - 1) = 1) :=
  ⟨by norm_num, samples_never_exact_midpoint 1024 (by norm_num)⟩
